import Mathlib

/-!
Verification of the AWS Infra Helper application (`app.py`) against its
natural-language specification.

The development is a shallow embedding of the application's cloud-facing
operations.  Remote boto3 clients are modelled as explicit state machines:
an `S3State` holds the buckets of the object store, a `CloudState` holds
the VPCs, subnets, security groups, images, instances and SSM parameters of
the compute side.  Read-only calls are pure functions of the state; mutating
calls return a result together with the successor state.  Each route handler
additionally returns the list of backend API calls it issued, so that
ordering and absence-of-call properties can be stated.  Python exceptions
are modelled by the `Err` type and `Except`; the handlers' shared
`except`-clause (demo fallback or HTTP 400 with the stringified message)
is the function `exc_response`.

All definitions model the configured-client regime of the source (the
`if not s3` / `if not ec2` demo short-circuits taken when boto3 could not
build a client at startup are not reachable in that regime and are omitted).
Pagination loops are modelled with a single page carrying the full listing.
-/

/-- Errors raised by the modelled backend calls, mirroring the exception
classes the source distinguishes: `botocore` `ClientError` (with its error
code and message), the three demo-mode credential/endpoint/region errors,
and plain Python `RuntimeError` / `IndexError`. -/
inductive Err where
  | clientError (code : String) (message : String)
  | noCredentials (message : String)
  | endpointConnection (message : String)
  | noRegion (message : String)
  | runtimeError (message : String)
  | indexError (message : String)
deriving DecidableEq, Repr

/-- Decidable equality of modelled call results, so that concrete instances
of the theorems can be checked by evaluation. -/
instance instDecEqExcept {ε α : Type} [DecidableEq ε] [DecidableEq α] :
    DecidableEq (Except ε α) := fun a b =>
  match a, b with
  | .ok x, .ok y =>
    if h : x = y then isTrue (by rw [h]) else isFalse (by intro hc; cases hc; exact h rfl)
  | .ok _, .error _ => isFalse (by intro hc; cases hc)
  | .error _, .ok _ => isFalse (by intro hc; cases hc)
  | .error x, .error y =>
    if h : x = y then isTrue (by rw [h]) else isFalse (by intro hc; cases hc; exact h rfl)

/-- The Python `str(e)` of a modelled exception.  For `ClientError` botocore
formats the code into the message; the other classes stringify to their
message. -/
def errMessage : Err → String
  | .clientError code m => "An error occurred (" ++ code ++ "): " ++ m
  | .noCredentials m => m
  | .endpointConnection m => m
  | .noRegion m => m
  | .runtimeError m => m
  | .indexError m => m

/-- Decides whether the character list `needle` matches the front of `hay`. -/
def chars_match_front : List Char → List Char → Bool
  | [], _ => true
  | _ :: _, [] => false
  | a :: as, b :: bs => a == b && chars_match_front as bs

/-- Decides whether the character list `needle` occurs contiguously anywhere
inside the second list. -/
def chars_search (needle : List Char) : List Char → Bool
  | [] => chars_match_front needle []
  | b :: bs => chars_match_front needle (b :: bs) || chars_search needle bs

/-- The Python `needle in hay` test on strings. -/
def contains_substring (hay needle : String) : Bool :=
  chars_search needle.toList hay.toList

/-- Embedding of `_demo_mode_from_exc` (app.py lines 64-67): true when the
exception is one of the credential/endpoint/region classes or its message
contains the substring shown. -/
def demo_mode_from_exc (e : Err) : Bool :=
  (match e with
   | .noCredentials _ => true
   | .endpointConnection _ => true
   | .noRegion _ => true
   | _ => false)
  || contains_substring (errMessage e) "Unable to locate credentials"

/-- An HTTP-level response produced by a route handler: a normal success,
a demo-mode substituted success, or a JSON error body with a status code. -/
inductive HttpResponse (α : Type) where
  | ok (value : α)
  | demoOk (value : α)
  | error (message : String) (status : Nat)
deriving DecidableEq, Repr

/-- The shared `except Exception as e` tail of every route handler: demo
fallback when `_demo_mode_from_exc(e)` holds, otherwise a 400 response
carrying `str(e)` verbatim. -/
def exc_response {α : Type} (e : Err) (demoValue : α) : HttpResponse α :=
  if demo_mode_from_exc e then .demoOk demoValue else .error (errMessage e) 400

/-- The module-level default region (app.py line 41); the environment
variables default to this value when unset. -/
def APP_REGION : String := "eu-west-3"

/- ## Object store (S3) model -/

/-- One historical object version or delete marker: a key and a version id. -/
structure S3Object where
  key : String
  versionId : String
deriving DecidableEq, Repr

/-- An entry of a batched delete request: phase (a) of `_empty_bucket` sends
a key together with a version id, phase (b) sends the key alone. -/
structure DeleteSpec where
  key : String
  versionId : Option String
deriving DecidableEq, Repr

/-- Backend-side state of one bucket: its name, creation date, the location
constraint recorded at creation, and its contents (versions, delete markers,
current objects). -/
structure BucketData where
  name : String
  creationDate : String
  locationConstraint : Option String
  versions : List S3Object
  deleteMarkers : List S3Object
  objects : List String
deriving DecidableEq, Repr

/-- State of the modelled object store. -/
structure S3State where
  buckets : List BucketData
deriving DecidableEq, Repr

/-- The S3 API calls a handler can issue, recorded for trace statements. -/
inductive S3Call where
  | listBuckets
  | getBucketLocation (bucket : String)
  | createBucket (bucket : String) (locationConstraint : Option String)
  | listObjectVersions (bucket : String)
  | listObjectsV2 (bucket : String)
  | deleteObjects (bucket : String) (objects : List DeleteSpec)
  | deleteBucket (bucket : String)
deriving DecidableEq, Repr

/-- Backend lookup of a bucket by name. -/
def s3_find_bucket (st : S3State) (bucket : String) : Option BucketData :=
  st.buckets.find? (fun b => b.name == bucket)

/-- Backend `list_object_versions`: the versions and delete markers of the
bucket.  In this backend model a missing bucket yields an empty listing. -/
def s3_list_object_versions (st : S3State) (bucket : String) :
    List S3Object × List S3Object :=
  match s3_find_bucket st bucket with
  | some b => (b.versions, b.deleteMarkers)
  | none => ([], [])

/-- Backend `list_objects_v2`: the current object keys of the bucket; empty
for a missing bucket. -/
def s3_list_objects_v2 (st : S3State) (bucket : String) : List String :=
  match s3_find_bucket st bucket with
  | some b => b.objects
  | none => []

/-- Backend batched `delete_objects`.  A versioned entry removes that exact
version or delete marker; an unversioned entry removes the current object
with that key.  Fails on a missing bucket. -/
def s3_delete_objects (st : S3State) (bucket : String) (objs : List DeleteSpec) :
    Except Err Unit × S3State :=
  match s3_find_bucket st bucket with
  | none => (.error (.clientError "NoSuchBucket" "The specified bucket does not exist"), st)
  | some b =>
    let versionedKeys := objs.filterMap (fun o => o.versionId.map (fun v => S3Object.mk o.key v))
    let plainKeys := (objs.filter (fun o => o.versionId == none)).map (fun o => o.key)
    let b2 : BucketData :=
      { b with
        versions := b.versions.filter (fun v => !versionedKeys.contains v),
        deleteMarkers := b.deleteMarkers.filter (fun m => !versionedKeys.contains m),
        objects := b.objects.filter (fun k => !plainKeys.contains k) }
    (.ok (), { buckets := st.buckets.map (fun x => if x.name == bucket then b2 else x) })

/-- Backend `delete_bucket`: fails with `NoSuchBucket` for a missing bucket
and with `BucketNotEmpty` for a non-empty one, else removes the bucket. -/
def s3_delete_bucket (st : S3State) (bucket : String) : Except Err Unit × S3State :=
  match s3_find_bucket st bucket with
  | none => (.error (.clientError "NoSuchBucket" "The specified bucket does not exist"), st)
  | some b =>
    if b.versions.isEmpty && b.deleteMarkers.isEmpty && b.objects.isEmpty then
      (.ok (), { buckets := st.buckets.filter (fun x => x.name != bucket) })
    else
      (.error (.clientError "BucketNotEmpty" "The bucket you tried to delete is not empty"), st)

/-- Backend `create_bucket`, receiving the optional location constraint of
the request's `CreateBucketConfiguration`.  Fails when the name is taken. -/
def s3_create_bucket (st : S3State) (bucket : String) (locationConstraint : Option String) :
    Except Err Unit × S3State :=
  match s3_find_bucket st bucket with
  | some _ =>
    (.error (.clientError "BucketAlreadyOwnedByYou"
        "Your previous request to create the named bucket succeeded"), st)
  | none =>
    (.ok (), { buckets :=
        st.buckets ++ [⟨bucket, "2024-01-01T00:00:00", locationConstraint, [], [], []⟩] })

/-- Embedding of `_empty_bucket` (app.py lines 79-99).  Phase (a) lists all
object versions and delete markers and batch-deletes them; phase (b) lists
the current objects and batch-deletes them.  Both phases sit inside a bare
`try`/`except: pass`, so a failing delete call is suppressed (the discarded
first component of the `s3_delete_objects` result); in this backend model
the listings themselves are total.  The paginator is modelled as a single
page carrying the whole listing. -/
def empty_bucket (st : S3State) (bucket : String) : S3State × List S3Call :=
  let page := s3_list_object_versions st bucket
  let objs := page.1.map (fun v => DeleteSpec.mk v.key (some v.versionId))
  let dms := page.2.map (fun m => DeleteSpec.mk m.key (some m.versionId))
  let to_del := objs ++ dms
  let phaseA : S3State × List S3Call :=
    if to_del.isEmpty then (st, [S3Call.listObjectVersions bucket])
    else
      match s3_delete_objects st bucket to_del with
      | (_, st2) => (st2, [S3Call.listObjectVersions bucket, S3Call.deleteObjects bucket to_del])
  let objsB := (s3_list_objects_v2 phaseA.1 bucket).map (fun k => DeleteSpec.mk k none)
  if objsB.isEmpty then (phaseA.1, phaseA.2 ++ [S3Call.listObjectsV2 bucket])
  else
    match s3_delete_objects phaseA.1 bucket objsB with
    | (_, st2) =>
      (st2, phaseA.2 ++ [S3Call.listObjectsV2 bucket, S3Call.deleteObjects bucket objsB])

/-- Embedding of the `DELETE /api/s3/<bucket>` handler (app.py lines
425-436): empty the bucket, delete it, and report any exception through the
shared `exc_response` tail. -/
def delete_bucket_route (st : S3State) (bucket : String) :
    HttpResponse String × S3State × List S3Call :=
  let emptied := empty_bucket st bucket
  match s3_delete_bucket emptied.1 bucket with
  | (.ok _, st2) => (.ok bucket, st2, emptied.2 ++ [S3Call.deleteBucket bucket])
  | (.error e, st2) => (exc_response e bucket, st2, emptied.2 ++ [S3Call.deleteBucket bucket])

/-- Embedding of the `POST /api/s3` handler (app.py lines 382-401): default
the region from `APP_REGION` when the field is missing or falsy, reject a
missing or empty bucket name, and special-case `us-east-1` to omit the
location constraint of the create call. -/
def create_bucket_route (st : S3State) (bucket_name : Option String) (region_field : Option String) :
    HttpResponse (String × String) × S3State × List S3Call :=
  let region : String :=
    match region_field with
    | none => APP_REGION
    | some r => if r == "" then APP_REGION else r
  match bucket_name with
  | none => (.error "bucket_name required" 400, st, [])
  | some name =>
    if name == "" then (.error "bucket_name required" 400, st, [])
    else
      let constraint : Option String := if region == "us-east-1" then none else some region
      match s3_create_bucket st name constraint with
      | (.ok _, st1) => (.ok (name, region), st1, [S3Call.createBucket name constraint])
      | (.error e, st1) => (exc_response e (name, region), st1, [S3Call.createBucket name constraint])

/-- Embedding of `_bucket_region` (app.py lines 69-77), parameterised by the
`get_bucket_location` behaviour of the backend: a raised exception degrades
to "unknown", an absent or empty `LocationConstraint` reports "us-east-1",
any other constraint is returned as-is. -/
def bucket_region (lookup : String → Except Err (Option String)) (bucket : String) : String :=
  match lookup bucket with
  | .error _ => "unknown"
  | .ok none => "us-east-1"
  | .ok (some loc) => if loc == "" then "us-east-1" else loc

/-- One row of the `GET /api/s3` response. -/
structure BucketRecord where
  name : String
  creationDate : String
  region : String
deriving DecidableEq, Repr

/-- Embedding of the per-bucket loop of `list_buckets` (app.py lines
356-380): each listed bucket (name and creation date) becomes one record
whose region is resolved through its own `_bucket_region` lookup. -/
def list_buckets_records (buckets : List (String × String))
    (lookup : String → Except Err (Option String)) : List BucketRecord :=
  buckets.map (fun b => ⟨b.1, b.2, bucket_region lookup b.1⟩)

/- ## Compute (EC2) and parameter store (SSM) model -/

/-- An isolated virtual network. -/
structure Vpc where
  vpcId : String
  isDefault : Bool
deriving DecidableEq, Repr

/-- A subnet of a VPC. -/
structure Subnet where
  subnetId : String
  vpcId : String
  defaultForAz : Bool
deriving DecidableEq, Repr

/-- One ingress permission of a security group. -/
structure IngressRule where
  ipProtocol : String
  fromPort : Nat
  toPort : Nat
  cidrIp : String
deriving DecidableEq, Repr

/-- A security group. -/
structure SecurityGroup where
  groupId : String
  groupName : String
  vpcId : String
  ingressRules : List IngressRule
deriving DecidableEq, Repr

/-- A machine image as the spec's fallback search would filter it. -/
structure Image where
  imageId : String
  name : String
  architecture : String
  state : String
  creationDate : String
deriving DecidableEq, Repr

/-- A key/value resource tag. -/
structure Tag where
  key : String
  value : String
deriving DecidableEq, Repr

/-- A compute instance as `describe_instances` returns it; fields the source
reads with `.get` are optional. -/
structure Instance where
  instanceId : String
  instanceType : Option String
  state : Option String
  publicIpAddress : Option String
  privateIpAddress : Option String
  tags : List Tag
  launchTime : Option String
  availabilityZone : Option String
deriving DecidableEq, Repr

/-- The network-interface specification the launch request carries. -/
structure NetworkInterfaceSpec where
  subnetId : String
  deviceIndex : Nat
  associatePublicIpAddress : Bool
  groups : List String
deriving DecidableEq, Repr

/-- The parameters of a `run_instances` request as the source builds them. -/
structure RunInstancesParams where
  imageId : String
  instanceType : String
  minCount : Nat
  maxCount : Nat
  networkInterfaces : List NetworkInterfaceSpec
  userData : String
  keyName : Option String
deriving DecidableEq, Repr

/-- State of the modelled compute backend and parameter store. -/
structure CloudState where
  parameters : List (String × String)
  vpcs : List Vpc
  subnets : List Subnet
  groups : List SecurityGroup
  images : List Image
  instances : List Instance
  nextSgId : Nat
  nextInstanceId : Nat
deriving DecidableEq, Repr

/-- The EC2/SSM API calls a handler can issue, recorded for traces. -/
inductive ApiCall where
  | getParameter (name : String)
  | describeVpcs (isDefaultFilter : Bool)
  | describeSubnets (vpcId : String) (defaultForAzOnly : Bool)
  | describeSecurityGroups (groupName : String) (vpcId : String)
  | createSecurityGroup (groupName : String) (description : String) (vpcId : String)
  | authorizeSecurityGroupIngress (groupId : String) (permissions : List IngressRule)
  | runInstances (params : RunInstancesParams)
  | createTags (resources : List String) (tags : List Tag)
deriving DecidableEq, Repr

/-- The well-known parameter path read by `_latest_al2023_ami`. -/
def al2023_param_name : String :=
  "/aws/service/ami-amazon-linux-latest/al2023-ami-kernel-default-x86_64"

/-- Backend `ssm.get_parameter`: the parameter's value, or the
`ParameterNotFound` client error. -/
def ssm_get_parameter (st : CloudState) (name : String) : Except Err String :=
  match st.parameters.find? (fun p => p.1 == name) with
  | some p => .ok p.2
  | none => .error (.clientError "ParameterNotFound" "The requested parameter was not found")

/-- Embedding of `_latest_al2023_ami` (app.py lines 132-134): a single read
of the managed latest pointer parameter; its value is the image id. -/
def latest_al2023_ami (st : CloudState) : Except Err String :=
  ssm_get_parameter st al2023_param_name

/-- Backend `describe_vpcs` with the `isDefault = true` filter. -/
def describe_vpcs_default (st : CloudState) : List Vpc :=
  st.vpcs.filter (fun v => v.isDefault)

/-- Backend `describe_subnets` filtered to a VPC and `default-for-az`. -/
def describe_subnets_default_for_az (st : CloudState) (vpcId : String) : List Subnet :=
  st.subnets.filter (fun s => s.vpcId == vpcId && s.defaultForAz)

/-- Backend `describe_subnets` filtered to a VPC only. -/
def describe_subnets_all (st : CloudState) (vpcId : String) : List Subnet :=
  st.subnets.filter (fun s => s.vpcId == vpcId)

/-- Embedding of `_default_vpc_and_subnet` (app.py lines 101-110): take the
first default VPC or raise `RuntimeError("No default VPC found")`; take the
first `default-for-az` subnet of that VPC, re-querying without that filter
when none qualify; indexing `[0]` into an empty subnet list raises the
Python `IndexError`. -/
def default_vpc_and_subnet (st : CloudState) :
    Except Err (String × String) × List ApiCall :=
  match describe_vpcs_default st with
  | [] => (.error (.runtimeError "No default VPC found"), [.describeVpcs true])
  | v :: _ =>
    match describe_subnets_default_for_az st v.vpcId with
    | s :: _ =>
      (.ok (v.vpcId, s.subnetId), [.describeVpcs true, .describeSubnets v.vpcId true])
    | [] =>
      match describe_subnets_all st v.vpcId with
      | s :: _ =>
        (.ok (v.vpcId, s.subnetId),
         [.describeVpcs true, .describeSubnets v.vpcId true, .describeSubnets v.vpcId false])
      | [] =>
        (.error (.indexError "list index out of range"),
         [.describeVpcs true, .describeSubnets v.vpcId true, .describeSubnets v.vpcId false])

/-- The default rule limit per security group of the modelled backend. -/
def maxRulesPerGroup : Nat := 60

/-- The per-group update a successful authorize call applies: the requested
permissions are appended to the rule set of the group carrying the id. -/
def add_rules (groupId : String) (perms : List IngressRule) (h : SecurityGroup) :
    SecurityGroup :=
  if h.groupId == groupId then { h with ingressRules := h.ingressRules ++ perms } else h

/-- Backend `authorize_security_group_ingress`: fails with
`InvalidPermission.Duplicate` when any requested rule already exists on the
group, with `RulesPerSecurityGroupLimitExceeded` when the quota would be
passed, and otherwise appends the rules to every group carrying the id. -/
def authorize_sg_ingress (st : CloudState) (groupId : String) (perms : List IngressRule) :
    Except Err Unit × CloudState :=
  match st.groups.find? (fun g => g.groupId == groupId) with
  | none => (.error (.clientError "InvalidGroup.NotFound" "The security group does not exist"), st)
  | some g =>
    if perms.any (fun p => g.ingressRules.contains p) then
      (.error (.clientError "InvalidPermission.Duplicate" "the specified rule already exists"), st)
    else if Nat.blt maxRulesPerGroup (g.ingressRules.length + perms.length) then
      (.error (.clientError "RulesPerSecurityGroupLimitExceeded"
          "The maximum number of rules per security group has been reached"), st)
    else
      (.ok (), { st with groups := st.groups.map (add_rules groupId perms) })

/-- The two fixed ingress rules `_ensure_sg` requests in one batch call. -/
def sg_ingress_rules : List IngressRule :=
  [⟨"tcp", 22, 22, "0.0.0.0/0"⟩, ⟨"tcp", 80, 80, "0.0.0.0/0"⟩]

/-- The `try`/`except ClientError` around the authorize call in `_ensure_sg`:
a `ClientError` whose code is `InvalidPermission.Duplicate` or
`InvalidGroup.Duplicate` is swallowed and the group id returned; every other
error re-raises. -/
def swallow_duplicate (r : Except Err Unit) (sg_id : String) : Except Err String :=
  match r with
  | .ok _ => .ok sg_id
  | .error e =>
    match e with
    | .clientError code _ =>
      if code == "InvalidPermission.Duplicate" || code == "InvalidGroup.Duplicate" then .ok sg_id
      else .error e
    | e2 => .error e2

/-- Embedding of `_ensure_sg` (app.py lines 112-130): look up the group by
name and VPC and reuse the first hit, else create a fresh one (the source's
default argument `name="infra-tool-sg"` is passed explicitly here); then
request the two ingress rules, swallowing only the duplicate error codes.
In this backend model the create call cannot itself fail, because the empty
lookup result already rules out the duplicate-group condition. -/
def ensure_sg (st : CloudState) (vpc_id name : String) :
    Except Err String × CloudState × List ApiCall :=
  match st.groups.filter (fun g => g.groupName == name && g.vpcId == vpc_id) with
  | g :: _ =>
    match authorize_sg_ingress st g.groupId sg_ingress_rules with
    | (authR, st2) =>
      (swallow_duplicate authR g.groupId, st2,
       [.describeSecurityGroups name vpc_id,
        .authorizeSecurityGroupIngress g.groupId sg_ingress_rules])
  | [] =>
    let gid := "sg-" ++ toString st.nextSgId
    let st1 : CloudState :=
      { st with groups := st.groups ++ [⟨gid, name, vpc_id, []⟩], nextSgId := st.nextSgId + 1 }
    match authorize_sg_ingress st1 gid sg_ingress_rules with
    | (authR, st2) =>
      (swallow_duplicate authR gid, st2,
       [.describeSecurityGroups name vpc_id,
        .createSecurityGroup name "Managed by Infra Tool" vpc_id,
        .authorizeSecurityGroupIngress gid sg_ingress_rules])

/-- Backend `run_instances`: fails when the image id does not exist or the
counts are invalid, else launches `maxCount` fresh instances (public address
assigned when a network interface requests it). -/
def ec2_run_instances (st : CloudState) (params : RunInstancesParams) :
    Except Err (List Instance) × CloudState :=
  if !st.images.any (fun img => img.imageId == params.imageId) then
    (.error (.clientError "InvalidAMIID.NotFound" "The image id does not exist"), st)
  else if params.minCount == 0 || Nat.blt params.maxCount params.minCount then
    (.error (.clientError "InvalidParameterValue" "Invalid value for minCount"), st)
  else
    let assoc := params.networkInterfaces.any (fun ni => ni.associatePublicIpAddress)
    let newInstances := (List.range params.maxCount).map (fun k =>
      { instanceId := "i-" ++ toString (st.nextInstanceId + k),
        instanceType := some params.instanceType,
        state := some "pending",
        publicIpAddress := if assoc then some "203.0.113.10" else none,
        privateIpAddress := some "10.0.0.5",
        tags := [],
        launchTime := some "2024-07-01T00:00:00",
        availabilityZone := some "eu-west-3a" : Instance })
    (.ok newInstances,
     { st with instances := st.instances ++ newInstances,
               nextInstanceId := st.nextInstanceId + params.maxCount })

/-- Backend `create_tags`: fails when any referenced instance id does not
exist, else appends the tags to each referenced instance. -/
def ec2_create_tags (st : CloudState) (resources : List String) (tags : List Tag) :
    Except Err Unit × CloudState :=
  if resources.any (fun r => !st.instances.any (fun i => i.instanceId == r)) then
    (.error (.clientError "InvalidInstanceID.NotFound" "The instance id does not exist"), st)
  else
    (.ok (), { st with instances := st.instances.map (fun i =>
        if resources.contains i.instanceId then { i with tags := i.tags ++ tags } else i) })

/-- The fixed cloud-init bootstrap payload of the launch handler. -/
def user_data : String :=
  "#cloud-config\npackage_update: true\npackages:\n  - nginx\nruncmd:\n  - echo \x27<h1>Instance OK</h1><p>Launched by Infra Tool.</p>\x27 > /usr/share/nginx/html/index.html\n  - systemctl enable nginx\n  - systemctl start nginx\n"

/-- The Python truthiness test `if key_name:` applied to the optional
key-pair name: the `KeyName` parameter is attached only for a present,
non-empty name. -/
def truthy_key (key_name : Option String) : Option String :=
  match key_name with
  | some k => if k == "" then none else some k
  | none => none

/-- The launch sequence after the image id has been settled (`ami`, with
`t1` the calls issued while resolving it): resolve the default VPC and
subnet, ensure the security group, issue the single `run_instances` request
and, only after it returned an instance, the separate `create_tags` call.
The first error aborts the sequence and is returned with the calls issued so
far. -/
def launch_with_image (st : CloudState) (instance_type : String) (key_name : Option String)
    (name_tag : String) (ami : String) (t1 : List ApiCall) :
    Except Err (String × String) × CloudState × List ApiCall :=
  match default_vpc_and_subnet st with
  | (.error e, t2) => (.error e, st, t1 ++ t2)
  | (.ok (vpc_id, subnet_id), t2) =>
    match ensure_sg st vpc_id "infra-tool-sg" with
    | (.error e, st3, t3) => (.error e, st3, t1 ++ t2 ++ t3)
    | (.ok sg_id, st3, t3) =>
      let params : RunInstancesParams :=
        { imageId := ami, instanceType := instance_type, minCount := 1, maxCount := 1,
          networkInterfaces := [⟨subnet_id, 0, true, [sg_id]⟩],
          userData := user_data, keyName := truthy_key key_name }
      match ec2_run_instances st3 params with
      | (.error e, st4) => (.error e, st4, t1 ++ t2 ++ t3 ++ [.runInstances params])
      | (.ok insts, st4) =>
        match insts with
        | [] =>
          (.error (.indexError "list index out of range"), st4,
           t1 ++ t2 ++ t3 ++ [.runInstances params])
        | inst :: _ =>
          match ec2_create_tags st4 [inst.instanceId] [⟨"Name", name_tag⟩] with
          | (.error e, st5) =>
            (.error e, st5,
             t1 ++ t2 ++ t3 ++ [.runInstances params,
                                .createTags [inst.instanceId] [⟨"Name", name_tag⟩]])
          | (.ok _, st5) =>
            (.ok (inst.instanceId, name_tag), st5,
             t1 ++ t2 ++ t3 ++ [.runInstances params,
                                .createTags [inst.instanceId] [⟨"Name", name_tag⟩]])

/-- Embedding of the `POST /api/ec2/launch` body (app.py lines 483-510),
after the handler has extracted `instance_type`, `key_name`, `ami_id` and
`name` from the request: resolve the image through the parameter read when
`ami_id` is falsy (the Python `if not ami_id`), then run the post-resolution
sequence of `launch_with_image` (MinCount = MaxCount = 1, a single
public-address network interface, the fixed bootstrap payload, `KeyName`
only when `key_name` is truthy, name tag applied in a second call). -/
def launch_instance (st : CloudState) (instance_type : String) (key_name : Option String)
    (ami_id : Option String) (name_tag : String) :
    Except Err (String × String) × CloudState × List ApiCall :=
  let amiStep : Except Err String × List ApiCall :=
    match ami_id with
    | some a =>
      if a == "" then (latest_al2023_ami st, [.getParameter al2023_param_name])
      else (.ok a, [])
    | none => (latest_al2023_ami st, [.getParameter al2023_param_name])
  match amiStep with
  | (.error e, t1) => (.error e, st, t1)
  | (.ok ami, t1) => launch_with_image st instance_type key_name name_tag ami t1

/-- One row of the `GET /api/ec2` response. -/
structure InstanceRecord where
  instanceId : String
  instanceType : Option String
  state : Option String
  publicIp : Option String
  privateIp : Option String
  name : Option String
  launchTime : Option String
  az : Option String
deriving DecidableEq, Repr

/-- The record the listing loop builds for one instance: its fields plus the
value of the first tag whose key is "Name", when one exists. -/
def instance_record (i : Instance) : InstanceRecord :=
  { instanceId := i.instanceId,
    instanceType := i.instanceType,
    state := i.state,
    publicIp := i.publicIpAddress,
    privateIp := i.privateIpAddress,
    name := (i.tags.find? (fun t => t.key == "Name")).map (fun t => t.value),
    launchTime := i.launchTime,
    az := i.availabilityZone }

/-- Embedding of the nested pagination loop of `list_instances` (app.py
lines 439-469): for every page, for every reservation, for every instance,
one output record. -/
def list_instances (pages : List (List (List Instance))) : List InstanceRecord :=
  pages.flatMap (fun page => page.flatMap (fun r => r.map instance_record))

/- ## Spec-side image resolution (the fallback described by the spec) -/

/-- Lexicographic byte order on strings, decided on the character lists;
the spec relies on this order agreeing with chronological order for
ISO-8601-like dates. -/
def chars_le : List Char → List Char → Bool
  | [], _ => true
  | _ :: _, [] => false
  | a :: as, b :: bs =>
    Nat.blt a.toNat b.toNat || (Nat.beq a.toNat b.toNat && chars_le as bs)

/-- String comparison used to order image creation dates. -/
def date_le (a b : String) : Bool := chars_le a.toList b.toList

/-- Insertion into a list sorted by creation date descending. -/
def insert_by_date_desc (img : Image) : List Image → List Image
  | [] => [img]
  | x :: xs =>
    if date_le x.creationDate img.creationDate then img :: x :: xs
    else x :: insert_by_date_desc img xs

/-- Insertion sort by creation date descending. -/
def sort_by_date_desc : List Image → List Image
  | [] => []
  | x :: xs => insert_by_date_desc x (sort_by_date_desc xs)

/-- Modelled from the spec: the image-resolution procedure of §4.3, whose
fallback branch (search provider images by name pattern, 64-bit x86
architecture and available state, sort by creation date descending, take
index 0, `NoImageFound` when empty) appears in no function of the source;
the source's `_latest_al2023_ami` consists of the primary parameter read
alone. -/
def image_resolution_spec (st : CloudState) : Except Err String :=
  match latest_al2023_ami st with
  | .ok v => .ok v
  | .error _ =>
    let candidates := st.images.filter (fun i =>
      chars_match_front "al2023-ami-".toList i.name.toList
        && i.architecture == "x86_64" && i.state == "available")
    match sort_by_date_desc candidates with
    | [] => .error (.runtimeError "NoImageFound")
    | i :: _ => .ok i.imageId

/- ## Concrete inputs used by the closed instance theorems -/

/-- A location-lookup table exercising all four outcomes of `bucket_region`. -/
def lookupW : String → Except Err (Option String) := fun b =>
  if b == "a" then .ok none
  else if b == "b" then .ok (some "")
  else if b == "c" then .error (.runtimeError "boom")
  else .ok (some "eu-west-3")

/-- A location lookup that fails for the bucket named "x" only. -/
def lookupFailX : String → Except Err (Option String) := fun b =>
  if b == "x" then .error (.runtimeError "boom") else .ok (some "eu-west-1")

/-- A location lookup that always succeeds. -/
def lookupAllOk : String → Except Err (Option String) := fun _ => .ok (some "eu-west-1")

/-- A compute state with no managed parameter but three available AL2023
x86_64 images whose creation dates are "2023-01-01", "2024-06-01" and
"2023-12-31". -/
def stNoParam : CloudState :=
  { parameters := [],
    vpcs := [], subnets := [], groups := [],
    images :=
      [⟨"ami-a", "al2023-ami-2023.0-kernel-default-x86_64", "x86_64", "available", "2023-01-01"⟩,
       ⟨"ami-b", "al2023-ami-2024.1-kernel-default-x86_64", "x86_64", "available", "2024-06-01"⟩,
       ⟨"ami-c", "al2023-ami-2023.9-kernel-default-x86_64", "x86_64", "available", "2023-12-31"⟩],
    instances := [], nextSgId := 0, nextInstanceId := 0 }

/-- A compute state whose parameter store holds the managed latest pointer. -/
def stParam : CloudState :=
  { parameters := [(al2023_param_name, "ami-123")],
    vpcs := [], subnets := [], groups := [], images := [],
    instances := [], nextSgId := 0, nextInstanceId := 0 }

/-- An instance carrying a Name tag (after an unrelated tag). -/
def instNamed : Instance :=
  { instanceId := "i-1", instanceType := some "t3.micro", state := some "running",
    publicIpAddress := some "203.0.113.10", privateIpAddress := some "10.0.0.5",
    tags := [⟨"env", "dev"⟩, ⟨"Name", "web"⟩], launchTime := some "2024-07-01T00:00:00",
    availabilityZone := some "eu-west-3a" }

/-- An instance with no Name tag. -/
def instUnnamed : Instance :=
  { instanceId := "i-2", instanceType := some "t3.micro", state := some "stopped",
    publicIpAddress := none, privateIpAddress := some "10.0.0.12",
    tags := [⟨"env", "dev"⟩], launchTime := some "2024-07-02T00:00:00",
    availabilityZone := some "eu-west-3b" }

/-- Two describe pages holding two reservations and three instances. -/
def pagesW : List (List (List Instance)) :=
  [[[instNamed, instUnnamed]], [[instUnnamed]]]

/-- A store holding one bucket unrelated to the one being deleted. -/
def stOneBucket : S3State :=
  ⟨[⟨"other", "2024-01-01T00:00:00", some "eu-west-3", [], [], []⟩]⟩

/-- A compute state with a default VPC and one zone-default subnet. -/
def stVpcW : CloudState :=
  { parameters := [], vpcs := [⟨"vpc-1", true⟩],
    subnets := [⟨"subnet-1", "vpc-1", true⟩],
    groups := [], images := [], instances := [], nextSgId := 0, nextInstanceId := 0 }

/-- An entirely empty compute state, used to run the reconciler twice. -/
def stSgEmpty : CloudState :=
  { parameters := [], vpcs := [], subnets := [], groups := [], images := [],
    instances := [], nextSgId := 0, nextInstanceId := 0 }

/-- The compute state after one successful reconciliation on `stSgEmpty`. -/
def stSgAfter : CloudState := (ensure_sg stSgEmpty "vpc-1" "infra-tool-sg").2.1

/-- The trace of the first reconciliation on `stSgEmpty`. -/
def trSgFirst : List ApiCall := (ensure_sg stSgEmpty "vpc-1" "infra-tool-sg").2.2

/-- A compute state in which every step of the launch sequence succeeds. -/
def stLaunch : CloudState :=
  { parameters := [(al2023_param_name, "ami-123")],
    vpcs := [⟨"vpc-1", true⟩],
    subnets := [⟨"subnet-1", "vpc-1", true⟩],
    groups := [],
    images := [⟨"ami-123", "al2023-ami-2024.0-kernel-default-x86_64", "x86_64", "available",
                "2024-01-15"⟩],
    instances := [], nextSgId := 0, nextInstanceId := 0 }

/-- The compute state after the successful launch on `stLaunch`. -/
def stLaunchAfter : CloudState := (launch_instance stLaunch "t3.micro" none none "web").2.1

/-- The call trace of the successful launch on `stLaunch`. -/
def trLaunch : List ApiCall := (launch_instance stLaunch "t3.micro" none none "web").2.2

/- ## Theorems -/

/-- C10: when the location lookup reports an absent or empty location
constraint, the region resolver reports "us-east-1"; a raised lookup
reports "unknown"; a successful non-empty constraint other than the literal
"unknown" is passed through and is in particular not "unknown". -/
theorem bucket_region_default_rule
    (lookup : String → Except Err (Option String)) (bucket : String) :
    (lookup bucket = .ok none → bucket_region lookup bucket = "us-east-1")
  ∧ (lookup bucket = .ok (some "") → bucket_region lookup bucket = "us-east-1")
  ∧ (∀ e, lookup bucket = .error e → bucket_region lookup bucket = "unknown")
  ∧ (∀ loc, lookup bucket = .ok (some loc) → loc ≠ "" → loc ≠ "unknown" →
      bucket_region lookup bucket = loc ∧ bucket_region lookup bucket ≠ "unknown") := by
  refine ⟨fun h => by simp [bucket_region, h],
          fun h => by simp [bucket_region, h],
          fun e h => by simp [bucket_region, h],
          fun loc h h1 h2 => ?_⟩
  have hb : (loc == "") = false := by simpa using h1
  have hv : bucket_region lookup bucket = loc := by simp [bucket_region, h, hb]
  exact ⟨hv, by rw [hv]; exact h2⟩

/-- C10 witness: the four outcomes at the concrete lookup table `lookupW`. -/
theorem bucket_region_default_rule_witness :
    bucket_region lookupW "a" = "us-east-1"
  ∧ bucket_region lookupW "b" = "us-east-1"
  ∧ bucket_region lookupW "c" = "unknown"
  ∧ bucket_region lookupW "d" = "eu-west-3" :=
  ⟨(bucket_region_default_rule lookupW "a").1 rfl,
   (bucket_region_default_rule lookupW "b").2.1 rfl,
   (bucket_region_default_rule lookupW "c").2.2.1 _ rfl,
   ((bucket_region_default_rule lookupW "d").2.2.2 "eu-west-3" rfl
      (by decide) (by decide)).1⟩

/-- C9: bucket listing maps each listed bucket through its own region
lookup: the listing keeps one record per bucket, a failing lookup degrades
that bucket's region to "unknown", and changing the lookup outcome of one
bucket name leaves every other bucket's record unchanged. -/
theorem list_buckets_partial_isolation
    (buckets : List (String × String))
    (lookup lookup2 : String → Except Err (Option String)) (b0 : String) :
    (list_buckets_records buckets lookup).length = buckets.length
  ∧ (∀ (i : Nat) (b : String × String), buckets[i]? = some b →
      ∃ r, (list_buckets_records buckets lookup)[i]? = some r ∧
        r.name = b.1 ∧ r.creationDate = b.2 ∧
        (∀ e, lookup b.1 = .error e → r.region = "unknown"))
  ∧ ((∀ n, n ≠ b0 → lookup n = lookup2 n) →
      ∀ (i : Nat) (b : String × String), buckets[i]? = some b → b.1 ≠ b0 →
        (list_buckets_records buckets lookup)[i]? = (list_buckets_records buckets lookup2)[i]?) := by
  refine ⟨by simp [list_buckets_records], ?_, ?_⟩
  · intro i b hib
    refine ⟨⟨b.1, b.2, bucket_region lookup b.1⟩, ?_, rfl, rfl, ?_⟩
    · simp [list_buckets_records, List.getElem?_map, hib]
    · intro e he
      simp [bucket_region, he]
  · intro hagree i b hib hb0
    have hl : lookup b.1 = lookup2 b.1 := hagree b.1 hb0
    simp [list_buckets_records, List.getElem?_map, hib, bucket_region, hl]

/-- C9 witness: with buckets "x" and "y", a lookup failing only for "x"
degrades only the "x" record to region "unknown" and leaves the "y" record
identical to the one produced by an always-succeeding lookup. -/
theorem list_buckets_partial_isolation_witness :
    (list_buckets_records [("x", "d1"), ("y", "d2")] lookupFailX).length = 2
  ∧ (∃ r, (list_buckets_records [("x", "d1"), ("y", "d2")] lookupFailX)[0]? = some r ∧
      r.name = "x" ∧ r.creationDate = "d1" ∧
      (∀ e, lookupFailX "x" = .error e → r.region = "unknown"))
  ∧ (list_buckets_records [("x", "d1"), ("y", "d2")] lookupFailX)[1]?
      = (list_buckets_records [("x", "d1"), ("y", "d2")] lookupAllOk)[1]? :=
  ⟨(list_buckets_partial_isolation [("x", "d1"), ("y", "d2")] lookupFailX lookupAllOk "x").1,
   (list_buckets_partial_isolation [("x", "d1"), ("y", "d2")] lookupFailX lookupAllOk "x").2.1
     0 ("x", "d1") rfl,
   (list_buckets_partial_isolation [("x", "d1"), ("y", "d2")] lookupFailX lookupAllOk "x").2.2
     (by intro n hn; simp [lookupFailX, lookupAllOk, hn]) 1 ("y", "d2") rfl (by decide)⟩

/-- C6 counterexample: a missing-credentials failure of a backend call is
not reported as a request failure; the boundary substitutes a success-shaped
demo response for it, contradicting the claim that every non-conflict
failure propagates as a request failure. -/
theorem error_passthrough_demo_cex :
    exc_response (Err.noCredentials "Unable to locate credentials") ([] : List BucketRecord)
      = HttpResponse.demoOk []
  ∧ exc_response (Err.noCredentials "Unable to locate credentials") ([] : List BucketRecord)
      ≠ HttpResponse.error
          (errMessage (Err.noCredentials "Unable to locate credentials")) 400 := by
  exact ⟨rfl, by decide⟩

/-- C6 amended: any failure that does not trigger the demo-mode predicate
(credential, endpoint or region errors, or a message containing "Unable to
locate credentials") is reported by the handler tail as a request failure
carrying the backend's stringified message verbatim with status 400; a
demo-mode failure is instead substituted with a demo success response. -/
theorem nondemo_error_passthrough {α : Type} (e : Err) (d : α) :
    (demo_mode_from_exc e = false →
      exc_response e d = HttpResponse.error (errMessage e) 400)
  ∧ (demo_mode_from_exc e = true → exc_response e d = HttpResponse.demoOk d) := by
  exact ⟨fun h => by simp [exc_response, h], fun h => by simp [exc_response, h]⟩

/-- C6 witness: a concrete access-denied client error is not demo-mode and
is reported verbatim with status 400. -/
theorem nondemo_error_passthrough_witness :
    demo_mode_from_exc (Err.clientError "AccessDenied" "Access Denied") = false
  ∧ exc_response (Err.clientError "AccessDenied" "Access Denied") "demo"
      = HttpResponse.error (errMessage (Err.clientError "AccessDenied" "Access Denied")) 400 :=
  ⟨by decide,
   (nondemo_error_passthrough (Err.clientError "AccessDenied" "Access Denied") "demo").1
     (by decide)⟩

/-- C1 counterexample: in a state with no managed parameter but three
available AL2023 x86_64 images dated "2023-01-01", "2024-06-01" and
"2023-12-31", the spec's resolution procedure would select "ami-b" (the
image dated "2024-06-01"), but the source's resolver performs no fallback
search: it fails with the parameter-read error instead of returning
"ami-b". -/
theorem latest_ami_no_fallback_cex :
    image_resolution_spec stNoParam = .ok "ami-b"
  ∧ latest_al2023_ami stNoParam
      = .error (.clientError "ParameterNotFound" "The requested parameter was not found")
  ∧ latest_al2023_ami stNoParam ≠ .ok "ami-b" := by
  refine ⟨by decide, by decide, by decide⟩

/-- C1 amended: image resolution consists of the primary managed-pointer
read alone: it returns the parameter's value when the read succeeds,
propagates the parameter-read failure otherwise, and is unaffected by the
set of provider images (no fallback search exists in the source). -/
theorem latest_ami_primary_only (st : CloudState) :
    (∀ n v, st.parameters.find? (fun p => p.1 == al2023_param_name) = some (n, v) →
        latest_al2023_ami st = .ok v)
  ∧ (st.parameters.find? (fun p => p.1 == al2023_param_name) = none →
        latest_al2023_ami st
          = .error (.clientError "ParameterNotFound" "The requested parameter was not found"))
  ∧ (∀ imgs, latest_al2023_ami { st with images := imgs } = latest_al2023_ami st) := by
  refine ⟨?_, ?_, fun imgs => rfl⟩
  · intro n v h
    simp [latest_al2023_ami, ssm_get_parameter, h]
  · intro h
    simp [latest_al2023_ami, ssm_get_parameter, h]

/-- C1 amended witness: with the managed parameter present the resolver
returns its value. -/
theorem latest_ami_primary_only_witness :
    stParam.parameters.find? (fun p => p.1 == al2023_param_name)
      = some (al2023_param_name, "ami-123")
  ∧ latest_al2023_ami stParam = .ok "ami-123" :=
  ⟨by decide, (latest_ami_primary_only stParam).1 al2023_param_name "ami-123" (by decide)⟩

/-- C4: for a request naming a bucket and an effective region R, the create
call issued carries an explicit location constraint equal to R exactly when
R is not "us-east-1", and no location constraint when R is "us-east-1". -/
theorem create_bucket_location_constraint
    (st : S3State) (name region : String) (hn : name ≠ "") (hr : region ≠ "") :
    (region ≠ "us-east-1" →
      (create_bucket_route st (some name) (some region)).2.2 =
        [S3Call.createBucket name (some region)])
  ∧ (region = "us-east-1" →
      (create_bucket_route st (some name) (some region)).2.2 =
        [S3Call.createBucket name none]) := by
  have hbr : (region == "") = false := by simpa using hr
  have hbn : (name == "") = false := by simpa using hn
  constructor
  · intro hne
    have hbu : (region == "us-east-1") = false := by simpa using hne
    simp only [create_bucket_route, hbr, hbn, hbu, Bool.false_eq_true, if_false]
    split <;> rfl
  · intro heq
    subst heq
    have h1 : ("us-east-1" == "") = false := by decide
    have h2 : ("us-east-1" == "us-east-1") = true := by decide
    simp only [create_bucket_route, h1, hbn, h2, Bool.false_eq_true, if_false, if_true]
    split <;> rfl

/-- C4 witness: concrete create calls for regions "eu-west-3" and
"us-east-1" against the empty store. -/
theorem create_bucket_location_constraint_witness :
    (create_bucket_route ⟨[]⟩ (some "b1") (some "eu-west-3")).2.2
      = [S3Call.createBucket "b1" (some "eu-west-3")]
  ∧ (create_bucket_route ⟨[]⟩ (some "b1") (some "us-east-1")).2.2
      = [S3Call.createBucket "b1" none] :=
  ⟨(create_bucket_location_constraint ⟨[]⟩ "b1" "eu-west-3" (by decide) (by decide)).1 (by decide),
   (create_bucket_location_constraint ⟨[]⟩ "b1" "us-east-1" (by decide) (by decide)).2 rfl⟩

/-- Helper: flattening one page of reservations commutes with building the
records. -/
lemma flatMap_map_eq_map_flatten (page : List (List Instance)) :
    page.flatMap (fun r => r.map instance_record) = page.flatten.map instance_record := by
  induction page with
  | nil => rfl
  | cons r rs ih => simp [List.flatMap_cons, List.flatten_cons, ih]

/-- C8: instance listing flattens the pages of reservations into exactly one
record per instance (so M instances across N reservations give M records),
and each record's name is the value of the instance's first "Name" tag when
one exists and null otherwise. -/
theorem list_instances_flatten (pages : List (List (List Instance))) :
    list_instances pages = pages.flatten.flatten.map instance_record
  ∧ (list_instances pages).length = pages.flatten.flatten.length
  ∧ ∀ i : Instance,
      (((instance_record i).name = none) ↔ ∀ t ∈ i.tags, t.key ≠ "Name")
    ∧ ((∃ t ∈ i.tags, t.key = "Name") →
        ∃ t ∈ i.tags, t.key = "Name" ∧ (instance_record i).name = some t.value) := by
  have hmain : list_instances pages = pages.flatten.flatten.map instance_record := by
    induction pages with
    | nil => rfl
    | cons p ps ih =>
      simp only [list_instances] at ih ⊢
      rw [List.flatMap_cons, List.flatten_cons, List.flatten_append, List.map_append,
          flatMap_map_eq_map_flatten, ih]
  refine ⟨hmain, by rw [hmain, List.length_map], fun i => ⟨?_, ?_⟩⟩
  · simp [instance_record, Option.map_eq_none', List.find?_eq_none]
  · rintro ⟨t, ht, hkey⟩
    have hsome : (i.tags.find? (fun t2 => t2.key == "Name")).isSome := by
      rw [List.find?_isSome]
      exact ⟨t, ht, by simp [hkey]⟩
    obtain ⟨t2, ht2⟩ := Option.isSome_iff_exists.mp hsome
    refine ⟨t2, List.mem_of_find?_eq_some ht2, by simpa using List.find?_some ht2, ?_⟩
    simp [instance_record, ht2]

/-- C8 witness: three instances across two pages give three records; the
tagged instance's record carries its Name value, the untagged one null. -/
theorem list_instances_flatten_witness :
    (list_instances pagesW).length = pagesW.flatten.flatten.length
  ∧ (∃ t ∈ instNamed.tags, t.key = "Name" ∧ (instance_record instNamed).name = some t.value)
  ∧ (instance_record instUnnamed).name = none :=
  ⟨(list_instances_flatten pagesW).2.1,
   ((list_instances_flatten pagesW).2.2 instNamed).2 ⟨⟨"Name", "web"⟩, by decide, by decide⟩,
   ((list_instances_flatten pagesW).2.2 instUnnamed).1.mpr (by decide)⟩

/-- C3: deleting a bucket that is no longer present surfaces the backend's
terminal NoSuchBucket failure as a 400 request failure (not a crash and not
a demo substitution), leaves the store unchanged, issues no create call, and
both emptying listings return empty — only the final delete call fails. -/
theorem delete_bucket_idempotent_effect
    (st : S3State) (bucket : String)
    (h : ∀ b ∈ st.buckets, b.name ≠ bucket) :
    delete_bucket_route st bucket
      = (HttpResponse.error
           (errMessage (Err.clientError "NoSuchBucket" "The specified bucket does not exist"))
           400,
         st,
         [S3Call.listObjectVersions bucket, S3Call.listObjectsV2 bucket,
          S3Call.deleteBucket bucket])
  ∧ (∀ b loc, S3Call.createBucket b loc ∉ (delete_bucket_route st bucket).2.2)
  ∧ s3_list_object_versions st bucket = ([], [])
  ∧ s3_list_objects_v2 st bucket = [] := by
  have hfind : s3_find_bucket st bucket = none := by
    rw [s3_find_bucket, List.find?_eq_none]
    intro b hb
    simpa using h b hb
  have hlv : s3_list_object_versions st bucket = ([], []) := by
    simp [s3_list_object_versions, hfind]
  have hl2 : s3_list_objects_v2 st bucket = [] := by
    simp [s3_list_objects_v2, hfind]
  have hdemo : demo_mode_from_exc
      (Err.clientError "NoSuchBucket" "The specified bucket does not exist") = false := by
    decide
  have hempty : empty_bucket st bucket
      = (st, [S3Call.listObjectVersions bucket, S3Call.listObjectsV2 bucket]) := by
    simp [empty_bucket, hlv, hl2]
  have hroute : delete_bucket_route st bucket
      = (HttpResponse.error
           (errMessage (Err.clientError "NoSuchBucket" "The specified bucket does not exist"))
           400,
         st,
         [S3Call.listObjectVersions bucket, S3Call.listObjectsV2 bucket,
          S3Call.deleteBucket bucket]) := by
    simp [delete_bucket_route, hempty, s3_delete_bucket, hfind, exc_response, hdemo]
  refine ⟨hroute, ?_, hlv, hl2⟩
  intro b loc
  rw [hroute]
  simp

/-- C3 witness: deleting the absent bucket "gone" from a store holding only
the bucket "other". -/
theorem delete_bucket_idempotent_effect_witness :
    delete_bucket_route stOneBucket "gone"
      = (HttpResponse.error
           (errMessage (Err.clientError "NoSuchBucket" "The specified bucket does not exist"))
           400,
         stOneBucket,
         [S3Call.listObjectVersions "gone", S3Call.listObjectsV2 "gone",
          S3Call.deleteBucket "gone"])
  ∧ s3_list_object_versions stOneBucket "gone" = ([], []) :=
  ⟨(delete_bucket_idempotent_effect stOneBucket "gone" (by decide)).1,
   (delete_bucket_idempotent_effect stOneBucket "gone" (by decide)).2.2.1⟩

/-- C7: network resolution fails with the no-default-network error when no
default VPC exists; with a default VPC it returns the first zone-default
subnet when one exists, else re-queries without the zone filter and returns
the first subnet, and fails (the empty-list indexing error) when the VPC has
no subnets at all. -/
theorem default_vpc_subnet_resolution (st : CloudState) :
    (describe_vpcs_default st = [] →
      (default_vpc_and_subnet st).1 = .error (.runtimeError "No default VPC found"))
  ∧ (∀ (v : Vpc) (vs : List Vpc), describe_vpcs_default st = v :: vs →
      (∀ (s : Subnet) (ss : List Subnet),
          describe_subnets_default_for_az st v.vpcId = s :: ss →
          (default_vpc_and_subnet st).1 = .ok (v.vpcId, s.subnetId))
    ∧ (describe_subnets_default_for_az st v.vpcId = [] →
        ∀ (s : Subnet) (ss : List Subnet),
          describe_subnets_all st v.vpcId = s :: ss →
          (default_vpc_and_subnet st).1 = .ok (v.vpcId, s.subnetId))
    ∧ (describe_subnets_all st v.vpcId = [] →
        (default_vpc_and_subnet st).1 = .error (.indexError "list index out of range"))) := by
  refine ⟨?_, fun v vs hv => ⟨?_, ?_, ?_⟩⟩
  · intro h0
    simp [default_vpc_and_subnet, h0]
  · intro s ss hs
    simp [default_vpc_and_subnet, hv, hs]
  · intro h0 s ss hs
    simp [default_vpc_and_subnet, hv, h0, hs]
  · intro h0
    have hall := List.filter_eq_nil_iff.mp h0
    have haz : describe_subnets_default_for_az st v.vpcId = [] := by
      rw [describe_subnets_default_for_az, List.filter_eq_nil_iff]
      intro a ha
      simp only [Bool.and_eq_true, not_and]
      intro hvpc
      exact absurd hvpc (by simpa using hall a ha)
    simp [default_vpc_and_subnet, hv, haz, h0]

/-- C7 witness: with one default VPC and one zone-default subnet, resolution
returns that pair. -/
theorem default_vpc_subnet_resolution_witness :
    describe_vpcs_default stVpcW = [⟨"vpc-1", true⟩]
  ∧ (default_vpc_and_subnet stVpcW).1 = .ok ("vpc-1", "subnet-1") :=
  ⟨by decide,
   ((default_vpc_subnet_resolution stVpcW).2 ⟨"vpc-1", true⟩ [] (by decide)).1
     ⟨"subnet-1", "vpc-1", true⟩ [] (by decide)⟩

lemma add_rules_groupId (gid : String) (perms : List IngressRule) (h : SecurityGroup) :
    (add_rules gid perms h).groupId = h.groupId := by
  unfold add_rules
  split <;> rfl

lemma filter_namevpc_map_add_rules (l : List SecurityGroup) (gid name vpc : String)
    (perms : List IngressRule) :
    (l.map (add_rules gid perms)).filter (fun g => g.groupName == name && g.vpcId == vpc)
      = (l.filter (fun g => g.groupName == name && g.vpcId == vpc)).map (add_rules gid perms) := by
  have hp : ((fun g => g.groupName == name && g.vpcId == vpc) ∘ add_rules gid perms)
      = (fun g : SecurityGroup => g.groupName == name && g.vpcId == vpc) := by
    funext g
    simp only [Function.comp_apply]
    unfold add_rules
    split <;> rfl
  rw [List.filter_map, hp]

lemma find_gid_map_add_rules (l : List SecurityGroup) (gid gid2 : String)
    (perms : List IngressRule) :
    (l.map (add_rules gid perms)).find? (fun g => g.groupId == gid2)
      = (l.find? (fun g => g.groupId == gid2)).map (add_rules gid perms) := by
  have hp : ((fun g => g.groupId == gid2) ∘ add_rules gid perms)
      = (fun g : SecurityGroup => g.groupId == gid2) := by
    funext g
    simp only [Function.comp_apply, add_rules_groupId]
  rw [List.find?_map, hp]

lemma any_contains_append (rules : List IngressRule) :
    sg_ingress_rules.any (fun p => (rules ++ sg_ingress_rules).contains p) = true := by
  simp [sg_ingress_rules]

lemma swallow_notfound (m gid : String) :
    swallow_duplicate (.error (.clientError "InvalidGroup.NotFound" m)) gid
      = .error (.clientError "InvalidGroup.NotFound" m) := rfl

lemma swallow_dup (m gid : String) :
    swallow_duplicate (.error (.clientError "InvalidPermission.Duplicate" m)) gid
      = .ok gid := rfl

lemma swallow_limit (m gid : String) :
    swallow_duplicate (.error (.clientError "RulesPerSecurityGroupLimitExceeded" m)) gid
      = .error (.clientError "RulesPerSecurityGroupLimitExceeded" m) := rfl

lemma swallow_okr (u : Unit) (gid : String) : swallow_duplicate (.ok u) gid = .ok gid := rfl

lemma ensure_sg_ok_state (st : CloudState) (vpc name id : String) (st1 : CloudState)
    (t1 : List ApiCall) (h : ensure_sg st vpc name = (.ok id, st1, t1)) :
    ∃ g gs, st1.groups.filter (fun g2 => g2.groupName == name && g2.vpcId == vpc) = g :: gs
      ∧ g.groupId = id
      ∧ ∃ h2, st1.groups.find? (fun g2 => g2.groupId == id) = some h2
          ∧ sg_ingress_rules.any (fun p => h2.ingressRules.contains p) = true := by
  unfold ensure_sg at h
  split at h
  case h_1 g gs hf =>
    rcases ha : authorize_sg_ingress st g.groupId sg_ingress_rules with ⟨authR, st2⟩
    rw [ha] at h
    dsimp only [] at h
    unfold authorize_sg_ingress at ha
    rcases hfind : st.groups.find? (fun g2 => g2.groupId == g.groupId) with _ | h2
    · rw [hfind] at ha
      dsimp only [] at ha
      injection ha with ha1 ha2
      rw [← ha1, swallow_notfound] at h
      simp at h
    · rw [hfind] at ha
      dsimp only [] at ha
      rcases hdup : sg_ingress_rules.any (fun p => h2.ingressRules.contains p) with _ | _
      · rw [hdup] at ha
        simp only [Bool.false_eq_true, if_false] at ha
        rcases hlim : Nat.blt maxRulesPerGroup (h2.ingressRules.length + sg_ingress_rules.length)
            with _ | _
        · rw [hlim] at ha
          simp only [Bool.false_eq_true, if_false] at ha
          injection ha with ha1 ha2
          rw [← ha1, swallow_okr] at h
          injection h with hid hrest
          injection hrest with hst htr
          injection hid with hid
          subst hst
          refine ⟨add_rules g.groupId sg_ingress_rules g,
                  (st.groups.filter
                    (fun g2 => g2.groupName == name && g2.vpcId == vpc)).tail.map
                      (add_rules g.groupId sg_ingress_rules), ?_, ?_, ?_⟩
          · rw [← ha2]
            dsimp only []
            rw [filter_namevpc_map_add_rules, hf]
            rfl
          · rw [add_rules_groupId, hid]
          · refine ⟨add_rules g.groupId sg_ingress_rules h2, ?_, ?_⟩
            · rw [← ha2]
              dsimp only []
              rw [← hid, find_gid_map_add_rules, hfind]
              rfl
            · have hgid2 : (h2.groupId == g.groupId) = true := by
                have h3 := List.find?_some hfind
                simpa using h3
              unfold add_rules
              rw [hgid2, if_pos rfl]
              exact any_contains_append h2.ingressRules
        · rw [hlim] at ha
          simp only [if_true] at ha
          injection ha with ha1 ha2
          rw [← ha1, swallow_limit] at h
          simp at h
      · rw [hdup] at ha
        simp only [if_true] at ha
        injection ha with ha1 ha2
        rw [← ha1, swallow_dup] at h
        injection h with hid hrest
        injection hrest with hst htr
        injection hid with hid
        subst hst
        exact ⟨g, gs, ha2 ▸ hf, hid, h2, hid ▸ ha2 ▸ hfind, hdup⟩
  case h_2 hf =>
    dsimp only [] at h
    rcases ha : authorize_sg_ingress
        { st with groups := st.groups ++ [⟨"sg-" ++ toString st.nextSgId, name, vpc, []⟩],
                  nextSgId := st.nextSgId + 1 }
        ("sg-" ++ toString st.nextSgId) sg_ingress_rules with ⟨authR, st2⟩
    rw [ha] at h
    dsimp only [] at h
    unfold authorize_sg_ingress at ha
    have hfiltN : (st.groups ++ [(⟨"sg-" ++ toString st.nextSgId, name, vpc, []⟩ : SecurityGroup)]).filter
        (fun g2 => g2.groupName == name && g2.vpcId == vpc)
        = [(⟨"sg-" ++ toString st.nextSgId, name, vpc, []⟩ : SecurityGroup)] := by
      rw [List.filter_append, hf]
      simp
    rcases hfind : ({ st with
        groups := st.groups ++ [⟨"sg-" ++ toString st.nextSgId, name, vpc, []⟩],
        nextSgId := st.nextSgId + 1 } : CloudState).groups.find?
          (fun g2 => g2.groupId == "sg-" ++ toString st.nextSgId) with _ | h2
    · rw [hfind] at ha
      dsimp only [] at ha
      injection ha with ha1 ha2
      rw [← ha1, swallow_notfound] at h
      simp at h
    · rw [hfind] at ha
      dsimp only [] at ha
      rcases hdup : sg_ingress_rules.any (fun p => h2.ingressRules.contains p) with _ | _
      · rw [hdup] at ha
        simp only [Bool.false_eq_true, if_false] at ha
        rcases hlim : Nat.blt maxRulesPerGroup (h2.ingressRules.length + sg_ingress_rules.length)
            with _ | _
        · rw [hlim] at ha
          simp only [Bool.false_eq_true, if_false] at ha
          injection ha with ha1 ha2
          rw [← ha1, swallow_okr] at h
          injection h with hid hrest
          injection hrest with hst htr
          injection hid with hid
          subst hst
          refine ⟨add_rules ("sg-" ++ toString st.nextSgId) sg_ingress_rules
                    ⟨"sg-" ++ toString st.nextSgId, name, vpc, []⟩, [], ?_, ?_, ?_⟩
          · rw [← ha2]
            dsimp only []
            rw [filter_namevpc_map_add_rules, hfiltN]
            rfl
          · rw [add_rules_groupId, hid]
          · refine ⟨add_rules ("sg-" ++ toString st.nextSgId) sg_ingress_rules h2, ?_, ?_⟩
            · rw [← ha2]
              dsimp only []
              rw [← hid, find_gid_map_add_rules]
              rw [hfind]
              rfl
            · have hgid2 : (h2.groupId == "sg-" ++ toString st.nextSgId) = true := by
                have h3 := List.find?_some hfind
                simpa using h3
              unfold add_rules
              rw [hgid2, if_pos rfl]
              exact any_contains_append h2.ingressRules
        · rw [hlim] at ha
          simp only [if_true] at ha
          injection ha with ha1 ha2
          rw [← ha1, swallow_limit] at h
          simp at h
      · rw [hdup] at ha
        simp only [if_true] at ha
        injection ha with ha1 ha2
        rw [← ha1, swallow_dup] at h
        injection h with hid hrest
        injection hrest with hst htr
        injection hid with hid
        subst hst
        refine ⟨⟨"sg-" ++ toString st.nextSgId, name, vpc, []⟩, [], ?_, hid, h2, ?_, hdup⟩
        · rw [← ha2]
          dsimp only []
          exact hfiltN
        · rw [← ha2, ← hid]
          exact hfind

lemma ensure_sg_second_call (st1 : CloudState) (vpc name id : String)
    (g : SecurityGroup) (gs : List SecurityGroup)
    (hf : st1.groups.filter (fun g2 => g2.groupName == name && g2.vpcId == vpc) = g :: gs)
    (hid : g.groupId = id)
    (h2 : SecurityGroup)
    (hfind : st1.groups.find? (fun g2 => g2.groupId == id) = some h2)
    (hdup : sg_ingress_rules.any (fun p => h2.ingressRules.contains p) = true) :
    ensure_sg st1 vpc name
      = (.ok id, st1,
         [.describeSecurityGroups name vpc,
          .authorizeSecurityGroupIngress id sg_ingress_rules]) := by
  have hauth : authorize_sg_ingress st1 id sg_ingress_rules
      = (.error (.clientError "InvalidPermission.Duplicate"
          "the specified rule already exists"), st1) := by
    unfold authorize_sg_ingress
    rw [hfind]
    dsimp only []
    rw [hdup]
    simp only [if_true]
  unfold ensure_sg
  rw [hf]
  dsimp only []
  rw [hid, hauth]
  dsimp only []
  rw [swallow_dup]

/-- C2: security-policy reconciliation is idempotent: a successful call
returns a policy id such that an identical second call returns the same id,
raises nothing, and leaves the backend state unchanged; a duplicate-rule
response from the authorize call is treated as success; any other authorize
failure propagates out of the reconciler. -/
theorem ensure_sg_idempotent :
    (∀ (st : CloudState) (vpc id : String) (st1 : CloudState) (t1 : List ApiCall),
       ensure_sg st vpc "infra-tool-sg" = (.ok id, st1, t1) →
       ensure_sg st1 vpc "infra-tool-sg"
         = (.ok id, st1,
            [.describeSecurityGroups "infra-tool-sg" vpc,
             .authorizeSecurityGroupIngress id sg_ingress_rules]))
  ∧ (∀ (st : CloudState) (vpc name : String) (g : SecurityGroup) (gs : List SecurityGroup)
       (m : String) (st2 : CloudState),
       st.groups.filter (fun g2 => g2.groupName == name && g2.vpcId == vpc) = g :: gs →
       authorize_sg_ingress st g.groupId sg_ingress_rules
         = (.error (.clientError "InvalidPermission.Duplicate" m), st2) →
       ensure_sg st vpc name
         = (.ok g.groupId, st2,
            [.describeSecurityGroups name vpc,
             .authorizeSecurityGroupIngress g.groupId sg_ingress_rules]))
  ∧ (∀ (st : CloudState) (vpc name : String) (g : SecurityGroup) (gs : List SecurityGroup)
       (e : Err) (st2 : CloudState),
       st.groups.filter (fun g2 => g2.groupName == name && g2.vpcId == vpc) = g :: gs →
       authorize_sg_ingress st g.groupId sg_ingress_rules = (.error e, st2) →
       (∀ code m, e = .clientError code m →
          code ≠ "InvalidPermission.Duplicate" ∧ code ≠ "InvalidGroup.Duplicate") →
       ensure_sg st vpc name
         = (.error e, st2,
            [.describeSecurityGroups name vpc,
             .authorizeSecurityGroupIngress g.groupId sg_ingress_rules])) := by
  refine ⟨?_, ?_, ?_⟩
  · intro st vpc id st1 t1 h
    obtain ⟨g, gs, hf, hid, h2, hfind, hdup⟩ := ensure_sg_ok_state st vpc "infra-tool-sg" id st1 t1 h
    exact ensure_sg_second_call st1 vpc "infra-tool-sg" id g gs hf hid h2 hfind hdup
  · intro st vpc name g gs m st2 hf hauth
    unfold ensure_sg
    rw [hf]
    dsimp only []
    rw [hauth]
    dsimp only []
    rw [swallow_dup]
  · intro st vpc name g gs e st2 hf hauth hnd
    unfold ensure_sg
    rw [hf]
    dsimp only []
    rw [hauth]
    dsimp only []
    cases e with
    | clientError code m =>
      obtain ⟨hc1, hc2⟩ := hnd code m rfl
      have hb1 : (code == "InvalidPermission.Duplicate") = false := by simpa using hc1
      have hb2 : (code == "InvalidGroup.Duplicate") = false := by simpa using hc2
      simp [swallow_duplicate, hb1, hb2]
    | noCredentials m => rfl
    | endpointConnection m => rfl
    | noRegion m => rfl
    | runtimeError m => rfl
    | indexError m => rfl

/-- C2 witness: on an empty backend the first reconciliation creates the
group "sg-0"; the second identical call returns the same id without raising
and leaves the state unchanged. -/
theorem ensure_sg_idempotent_witness :
    ensure_sg stSgEmpty "vpc-1" "infra-tool-sg" = (.ok "sg-0", stSgAfter, trSgFirst)
  ∧ ensure_sg stSgAfter "vpc-1" "infra-tool-sg"
      = (.ok "sg-0", stSgAfter,
         [.describeSecurityGroups "infra-tool-sg" "vpc-1",
          .authorizeSecurityGroupIngress "sg-0" sg_ingress_rules]) :=
  ⟨rfl, ensure_sg_idempotent.1 stSgEmpty "vpc-1" "sg-0" stSgAfter trSgFirst rfl⟩

lemma swallow_duplicate_ok (r : Except Err Unit) (gid sg : String)
    (h : swallow_duplicate r gid = .ok sg) : gid = sg := by
  unfold swallow_duplicate at h
  split at h
  · injection h
  · split at h
    · split at h
      · injection h
      · cases h
    · cases h

lemma default_vpc_and_subnet_ok_trace (st : CloudState) (vpc subnet : String)
    (t : List ApiCall)
    (h : default_vpc_and_subnet st = (.ok (vpc, subnet), t)) :
    t = [.describeVpcs true, .describeSubnets vpc true]
    ∨ t = [.describeVpcs true, .describeSubnets vpc true, .describeSubnets vpc false] := by
  unfold default_vpc_and_subnet at h
  split at h
  · simp at h
  case h_2 v vs hv =>
    split at h
    case h_1 s ss hs =>
      injection h with h1 h2
      injection h1 with h1
      injection h1 with ha hb
      subst ha
      left
      exact h2.symm
    case h_2 hs =>
      split at h
      case h_1 s ss hs2 =>
        injection h with h1 h2
        injection h1 with h1
        injection h1 with ha hb
        subst ha
        right
        exact h2.symm
      case h_2 hs2 =>
        simp at h

lemma ensure_sg_ok_trace (st : CloudState) (vpc name sg : String) (st2 : CloudState)
    (t : List ApiCall) (h : ensure_sg st vpc name = (.ok sg, st2, t)) :
    t = [.describeSecurityGroups name vpc, .authorizeSecurityGroupIngress sg sg_ingress_rules]
    ∨ t = [.describeSecurityGroups name vpc,
           .createSecurityGroup name "Managed by Infra Tool" vpc,
           .authorizeSecurityGroupIngress sg sg_ingress_rules] := by
  unfold ensure_sg at h
  split at h
  case h_1 g gs hf =>
    rcases ha : authorize_sg_ingress st g.groupId sg_ingress_rules with ⟨authR, st3⟩
    rw [ha] at h
    dsimp only [] at h
    injection h with h1 hrest
    injection hrest with h2 h3
    have hg := swallow_duplicate_ok authR g.groupId sg h1
    subst hg
    left
    exact h3.symm
  case h_2 hf =>
    dsimp only [] at h
    rcases ha : authorize_sg_ingress
        { st with groups := st.groups ++ [⟨"sg-" ++ toString st.nextSgId, name, vpc, []⟩],
                  nextSgId := st.nextSgId + 1 }
        ("sg-" ++ toString st.nextSgId) sg_ingress_rules with ⟨authR, st3⟩
    rw [ha] at h
    dsimp only [] at h
    injection h with h1 hrest
    injection hrest with h2 h3
    have hg := swallow_duplicate_ok authR ("sg-" ++ toString st.nextSgId) sg h1
    rw [hg] at h3
    right
    exact h3.symm

lemma default_vpc_and_subnet_no_tags (st : CloudState)
    (r : Except Err (String × String)) (t : List ApiCall)
    (h : default_vpc_and_subnet st = (r, t)) :
    ∀ (rs : List String) (tg : List Tag), ApiCall.createTags rs tg ∉ t := by
  unfold default_vpc_and_subnet at h
  split at h
  · injection h with h1 h2
    intro rs tg
    rw [← h2]
    simp
  · split at h
    · injection h with h1 h2
      intro rs tg
      rw [← h2]
      simp
    · split at h
      · injection h with h1 h2
        intro rs tg
        rw [← h2]
        simp
      · injection h with h1 h2
        intro rs tg
        rw [← h2]
        simp

lemma ensure_sg_no_tags (st : CloudState) (vpc name : String)
    (r : Except Err String) (st2 : CloudState) (t : List ApiCall)
    (h : ensure_sg st vpc name = (r, st2, t)) :
    ∀ (rs : List String) (tg : List Tag), ApiCall.createTags rs tg ∉ t := by
  unfold ensure_sg at h
  split at h
  case h_1 g gs hf =>
    rcases ha : authorize_sg_ingress st g.groupId sg_ingress_rules with ⟨authR, st3⟩
    rw [ha] at h
    dsimp only [] at h
    injection h with h1 hrest
    injection hrest with h2 h3
    intro rs tg
    rw [← h3]
    simp
  case h_2 hf =>
    dsimp only [] at h
    rcases ha : authorize_sg_ingress
        { st with groups := st.groups ++ [⟨"sg-" ++ toString st.nextSgId, name, vpc, []⟩],
                  nextSgId := st.nextSgId + 1 }
        ("sg-" ++ toString st.nextSgId) sg_ingress_rules with ⟨authR, st3⟩
    rw [ha] at h
    dsimp only [] at h
    injection h with h1 hrest
    injection hrest with h2 h3
    intro rs tg
    rw [← h3]
    simp

lemma launch_with_image_ok (st : CloudState) (itype : String) (key : Option String)
    (nm amiv : String) (t1 : List ApiCall) (iid : String) (st5 : CloudState)
    (tr : List ApiCall)
    (h : launch_with_image st itype key nm amiv t1 = (.ok (iid, nm), st5, tr)) :
    ∃ (t2 t3 : List ApiCall) (vpc subnet sg : String) (ps : RunInstancesParams),
      tr = t1 ++ t2 ++ t3 ++ [.runInstances ps, .createTags [iid] [⟨"Name", nm⟩]]
      ∧ ps.imageId = amiv
      ∧ (t2 = [.describeVpcs true, .describeSubnets vpc true]
         ∨ t2 = [.describeVpcs true, .describeSubnets vpc true, .describeSubnets vpc false])
      ∧ (t3 = [.describeSecurityGroups "infra-tool-sg" vpc,
               .authorizeSecurityGroupIngress sg sg_ingress_rules]
         ∨ t3 = [.describeSecurityGroups "infra-tool-sg" vpc,
                 .createSecurityGroup "infra-tool-sg" "Managed by Infra Tool" vpc,
                 .authorizeSecurityGroupIngress sg sg_ingress_rules])
      ∧ ps.minCount = 1 ∧ ps.maxCount = 1 ∧ ps.instanceType = itype
      ∧ ps.userData = user_data
      ∧ ps.networkInterfaces = [⟨subnet, 0, true, [sg]⟩]
      ∧ (key = none → ps.keyName = none)
      ∧ (∀ k, key = some k → k ≠ "" → ps.keyName = some k) := by
  unfold launch_with_image at h
  rcases hd : default_vpc_and_subnet st with ⟨rd, t2⟩
  rw [hd] at h
  rcases rd with e | ⟨vpc, subnet⟩
  · dsimp only [] at h
    simp at h
  · dsimp only [] at h
    rcases he : ensure_sg st vpc "infra-tool-sg" with ⟨re, st3, t3⟩
    rw [he] at h
    rcases re with e | sg
    · dsimp only [] at h
      simp at h
    · dsimp only [] at h
      split at h
      · simp at h
      case h_2 insts st4 hrun =>
        split at h
        · simp at h
        case h_2 inst rest =>
          split at h
          · simp at h
          case h_2 u st5x htags =>
            injection h with h1 hrest2
            injection hrest2 with hst htr
            injection h1 with h1
            injection h1 with hiid hnm2
            refine ⟨t2, t3, vpc, subnet, sg,
                    { imageId := amiv, instanceType := itype, minCount := 1, maxCount := 1,
                      networkInterfaces := [⟨subnet, 0, true, [sg]⟩],
                      userData := user_data,
                      keyName := truthy_key key },
                    ?_, rfl,
                    default_vpc_and_subnet_ok_trace st vpc subnet t2 hd,
                    ensure_sg_ok_trace st vpc "infra-tool-sg" sg st3 t3 he,
                    rfl, rfl, rfl, rfl, rfl, ?_, ?_⟩
            · rw [← hiid]
              exact htr.symm
            · intro hk
              subst hk
              rfl
            · intro k hk hkne
              subst hk
              have hb : (k == "") = false := by simpa using hkne
              simp [truthy_key, hb]

lemma launch_with_image_tags_position (st : CloudState) (itype : String) (key : Option String)
    (nm amiv : String) (t1 : List ApiCall)
    (ht1 : ∀ (rs : List String) (tg : List Tag), ApiCall.createTags rs tg ∉ t1)
    (res : Except Err (String × String)) (st5 : CloudState) (tr : List ApiCall)
    (h : launch_with_image st itype key nm amiv t1 = (res, st5, tr)) :
    ∀ (rs : List String) (tg : List Tag), ApiCall.createTags rs tg ∈ tr →
      ∃ (pre : List ApiCall) (ps : RunInstancesParams),
        tr = pre ++ [.runInstances ps, .createTags rs tg] := by
  unfold launch_with_image at h
  rcases hd : default_vpc_and_subnet st with ⟨rd, t2⟩
  rw [hd] at h
  have h2tags := default_vpc_and_subnet_no_tags st rd t2 hd
  rcases rd with e | ⟨vpc, subnet⟩
  · dsimp only [] at h
    injection h with h1 hrest
    injection hrest with hst htr
    intro rs tg hmem
    rw [← htr] at hmem
    rcases List.mem_append.mp hmem with hm | hm
    · exact absurd hm (ht1 rs tg)
    · exact absurd hm (h2tags rs tg)
  · dsimp only [] at h
    rcases he : ensure_sg st vpc "infra-tool-sg" with ⟨re, st3, t3⟩
    rw [he] at h
    have h3tags := ensure_sg_no_tags st vpc "infra-tool-sg" re st3 t3 he
    rcases re with e | sg
    · dsimp only [] at h
      injection h with h1 hrest
      injection hrest with hst htr
      intro rs tg hmem
      rw [← htr] at hmem
      rcases List.mem_append.mp hmem with hm | hm
      · rcases List.mem_append.mp hm with hm2 | hm2
        · exact absurd hm2 (ht1 rs tg)
        · exact absurd hm2 (h2tags rs tg)
      · exact absurd hm (h3tags rs tg)
    · dsimp only [] at h
      split at h
      case h_1 e st4 hrun =>
        injection h with h1 hrest
        injection hrest with hst htr
        intro rs tg hmem
        rw [← htr] at hmem
        rcases List.mem_append.mp hmem with hm | hm
        · rcases List.mem_append.mp hm with hm2 | hm2
          · rcases List.mem_append.mp hm2 with hm3 | hm3
            · exact absurd hm3 (ht1 rs tg)
            · exact absurd hm3 (h2tags rs tg)
          · exact absurd hm2 (h3tags rs tg)
        · simp at hm
      case h_2 insts st4 hrun =>
        split at h
        case h_1 =>
          injection h with h1 hrest
          injection hrest with hst htr
          intro rs tg hmem
          rw [← htr] at hmem
          rcases List.mem_append.mp hmem with hm | hm
          · rcases List.mem_append.mp hm with hm2 | hm2
            · rcases List.mem_append.mp hm2 with hm3 | hm3
              · exact absurd hm3 (ht1 rs tg)
              · exact absurd hm3 (h2tags rs tg)
            · exact absurd hm2 (h3tags rs tg)
          · simp at hm
        case h_2 inst rest =>
          split at h
          case h_1 e st5x htg =>
            injection h with h1 hrest
            injection hrest with hst htr
            intro rs tg hmem
            rw [← htr] at hmem
            rcases List.mem_append.mp hmem with hm | hm
            · rcases List.mem_append.mp hm with hm2 | hm2
              · rcases List.mem_append.mp hm2 with hm3 | hm3
                · exact absurd hm3 (ht1 rs tg)
                · exact absurd hm3 (h2tags rs tg)
              · exact absurd hm2 (h3tags rs tg)
            · simp at hm
              obtain ⟨hrs, htg3⟩ := hm
              subst hrs
              subst htg3
              exact ⟨t1 ++ t2 ++ t3, _, htr.symm⟩
          case h_2 u st5x htg =>
            injection h with h1 hrest
            injection hrest with hst htr
            intro rs tg hmem
            rw [← htr] at hmem
            rcases List.mem_append.mp hmem with hm | hm
            · rcases List.mem_append.mp hm with hm2 | hm2
              · rcases List.mem_append.mp hm2 with hm3 | hm3
                · exact absurd hm3 (ht1 rs tg)
                · exact absurd hm3 (h2tags rs tg)
              · exact absurd hm2 (h3tags rs tg)
            · simp at hm
              obtain ⟨hrs, htg3⟩ := hm
              subst hrs
              subst htg3
              exact ⟨t1 ++ t2 ++ t3, _, htr.symm⟩

/-- C5: a successful launch issues its calls in the strict order: parameter
read (only when the caller supplied no image id), describe default VPCs,
describe subnets (re-queried at most once), describe security groups,
optionally create the group, authorize its ingress rules, one single
`run_instances` request (MinCount = MaxCount = 1, one public-address network
interface, the fixed bootstrap payload, the key-pair name only when present
and non-empty), and finally the separate name-tag call against the returned
instance id; moreover, in every outcome a `create_tags` call appears in the
trace only immediately after the `run_instances` call, so the tag is applied
only once instance creation has succeeded. -/
theorem launch_instance_sequence (st : CloudState) (itype : String) (key : Option String)
    (ami : Option String) (nm : String) :
    (∀ (iid : String) (st5 : CloudState) (tr : List ApiCall),
       launch_instance st itype key ami nm = (.ok (iid, nm), st5, tr) →
       ∃ (t1 t2 t3 : List ApiCall) (vpc subnet sg : String) (ps : RunInstancesParams),
         tr = t1 ++ t2 ++ t3 ++ [.runInstances ps, .createTags [iid] [⟨"Name", nm⟩]]
         ∧ (ami = none → t1 = [.getParameter al2023_param_name])
         ∧ (∀ a, ami = some a → a ≠ "" → t1 = [] ∧ ps.imageId = a)
         ∧ (t2 = [.describeVpcs true, .describeSubnets vpc true]
            ∨ t2 = [.describeVpcs true, .describeSubnets vpc true, .describeSubnets vpc false])
         ∧ (t3 = [.describeSecurityGroups "infra-tool-sg" vpc,
                  .authorizeSecurityGroupIngress sg sg_ingress_rules]
            ∨ t3 = [.describeSecurityGroups "infra-tool-sg" vpc,
                    .createSecurityGroup "infra-tool-sg" "Managed by Infra Tool" vpc,
                    .authorizeSecurityGroupIngress sg sg_ingress_rules])
         ∧ ps.minCount = 1 ∧ ps.maxCount = 1 ∧ ps.instanceType = itype
         ∧ ps.userData = user_data
         ∧ ps.networkInterfaces = [⟨subnet, 0, true, [sg]⟩]
         ∧ (key = none → ps.keyName = none)
         ∧ (∀ k, key = some k → k ≠ "" → ps.keyName = some k))
  ∧ (∀ (res : Except Err (String × String)) (st5 : CloudState) (tr : List ApiCall),
       launch_instance st itype key ami nm = (res, st5, tr) →
       ∀ (rs : List String) (tg : List Tag), ApiCall.createTags rs tg ∈ tr →
         ∃ (pre : List ApiCall) (ps : RunInstancesParams),
           tr = pre ++ [.runInstances ps, .createTags rs tg]) := by
  constructor
  · intro iid st5 tr h
    unfold launch_instance at h
    dsimp only [] at h
    rcases ami with _ | a
    · rcases hp : latest_al2023_ami st with e | v
      · rw [hp] at h
        dsimp only [] at h
        simp at h
      · rw [hp] at h
        dsimp only [] at h
        obtain ⟨t2, t3, vpc, subnet, sg, ps, htr, himg, ht2, ht3, hmin, hmax, hit, hud,
                hni, hk1, hk2⟩ :=
          launch_with_image_ok st itype key nm v [.getParameter al2023_param_name] iid st5 tr h
        exact ⟨[.getParameter al2023_param_name], t2, t3, vpc, subnet, sg, ps, htr,
               fun _ => rfl, fun a ha => Option.noConfusion ha,
               ht2, ht3, hmin, hmax, hit, hud, hni, hk1, hk2⟩
    · dsimp only [] at h
      rcases hb : a == "" with _ | _
      · have hbn : ¬((a == "") = true) := by simp [hb]
        rw [if_neg hbn] at h
        dsimp only [] at h
        obtain ⟨t2, t3, vpc, subnet, sg, ps, htr, himg, ht2, ht3, hmin, hmax, hit, hud,
                hni, hk1, hk2⟩ :=
          launch_with_image_ok st itype key nm a [] iid st5 tr h
        refine ⟨[], t2, t3, vpc, subnet, sg, ps, htr,
                fun hc => Option.noConfusion hc, ?_,
                ht2, ht3, hmin, hmax, hit, hud, hni, hk1, hk2⟩
        intro a2 ha2 hne
        injection ha2 with ha2
        subst ha2
        exact ⟨rfl, himg⟩
      · rw [if_pos hb] at h
        have hae : a = "" := by simpa using hb
        rcases hp : latest_al2023_ami st with e | v
        · rw [hp] at h
          dsimp only [] at h
          simp at h
        · rw [hp] at h
          dsimp only [] at h
          obtain ⟨t2, t3, vpc, subnet, sg, ps, htr, himg, ht2, ht3, hmin, hmax, hit, hud,
                  hni, hk1, hk2⟩ :=
            launch_with_image_ok st itype key nm v [.getParameter al2023_param_name] iid st5 tr h
          refine ⟨[.getParameter al2023_param_name], t2, t3, vpc, subnet, sg, ps, htr,
                  fun hc => Option.noConfusion hc, ?_,
                  ht2, ht3, hmin, hmax, hit, hud, hni, hk1, hk2⟩
          intro a2 ha2 hne
          injection ha2 with ha2
          subst ha2
          exact absurd hae.symm (Ne.symm hne)
  · intro res st5 tr h rs tg hmem
    unfold launch_instance at h
    dsimp only [] at h
    rcases ami with _ | a
    · rcases hp : latest_al2023_ami st with e | v
      · rw [hp] at h
        dsimp only [] at h
        injection h with h1 hrest
        injection hrest with hst htr
        rw [← htr] at hmem
        simp at hmem
      · rw [hp] at h
        dsimp only [] at h
        exact launch_with_image_tags_position st itype key nm v [.getParameter al2023_param_name]
          (by intro rs2 tg2; simp) res st5 tr h rs tg hmem
    · dsimp only [] at h
      rcases hb : a == "" with _ | _
      · have hbn : ¬((a == "") = true) := by simp [hb]
        rw [if_neg hbn] at h
        dsimp only [] at h
        exact launch_with_image_tags_position st itype key nm a []
          (by intro rs2 tg2; simp) res st5 tr h rs tg hmem
      · rw [if_pos hb] at h
        rcases hp : latest_al2023_ami st with e | v
        · rw [hp] at h
          dsimp only [] at h
          injection h with h1 hrest
          injection hrest with hst htr
          rw [← htr] at hmem
          simp at hmem
        · rw [hp] at h
          dsimp only [] at h
          exact launch_with_image_tags_position st itype key nm v
            [.getParameter al2023_param_name] (by intro rs2 tg2; simp) res st5 tr h rs tg hmem

/-- C5 witness: on `stLaunch` the launch succeeds with instance "i-0" and
its trace has the claimed strictly ordered shape. -/
theorem launch_instance_sequence_witness :
    launch_instance stLaunch "t3.micro" none none "web"
      = (.ok ("i-0", "web"), stLaunchAfter, trLaunch)
  ∧ ∃ (t1 t2 t3 : List ApiCall) (vpc subnet sg : String) (ps : RunInstancesParams),
      trLaunch = t1 ++ t2 ++ t3
          ++ [.runInstances ps, .createTags ["i-0"] [⟨"Name", "web"⟩]]
      ∧ ((none : Option String) = none → t1 = [.getParameter al2023_param_name])
      ∧ (∀ a, (none : Option String) = some a → a ≠ "" → t1 = [] ∧ ps.imageId = a)
      ∧ (t2 = [.describeVpcs true, .describeSubnets vpc true]
         ∨ t2 = [.describeVpcs true, .describeSubnets vpc true, .describeSubnets vpc false])
      ∧ (t3 = [.describeSecurityGroups "infra-tool-sg" vpc,
               .authorizeSecurityGroupIngress sg sg_ingress_rules]
         ∨ t3 = [.describeSecurityGroups "infra-tool-sg" vpc,
                 .createSecurityGroup "infra-tool-sg" "Managed by Infra Tool" vpc,
                 .authorizeSecurityGroupIngress sg sg_ingress_rules])
      ∧ ps.minCount = 1 ∧ ps.maxCount = 1 ∧ ps.instanceType = "t3.micro"
      ∧ ps.userData = user_data
      ∧ ps.networkInterfaces = [⟨subnet, 0, true, [sg]⟩]
      ∧ ((none : Option String) = none → ps.keyName = none)
      ∧ (∀ k, (none : Option String) = some k → k ≠ "" → ps.keyName = some k) :=
  ⟨rfl,
   (launch_instance_sequence stLaunch "t3.micro" none none "web").1
     "i-0" stLaunchAfter trLaunch rfl⟩
